import Mathlib

/-!
Verification of the `astrbot_plugin_symmetry` plugin (src/main.py) against its
natural-language specification.

The development shallowly embeds the parts of `main.py` the claims are about:

* the three mirror transforms `mirror_left_to_right`, `mirror_top_to_bottom`
  and `mirror_center_quadrant` (lines 234-277), over an image model that
  mirrors the Pillow operations they use (`crop`, `transpose`, `rotate(180)`,
  `copy`, `paste` with an RGBA alpha mask, `resize`);
* the byte loader `load_bytes` (lines 29-60), over abstract network and
  filesystem environments;
* the per-segment extraction logic of `get_first_image` (lines 63-133);
* the argument-normalisation table and pipeline of `SymmetryByReply.sym`
  (lines 180-289) and its temp-file send/cleanup stage (lines 302-313).

Machine bytes are modelled as `Nat` with explicit bounds where they matter.
`resize` (only reachable on odd dimensions) is a parameter of the transforms;
every theorem below either avoids the resize path or holds for every resample
function, so its LANCZOS pixel content never needs to be modelled.
-/

/-- One RGBA pixel; channels are 8-bit values stored as `Nat`. -/
structure Pixel where
  r : Nat
  g : Nat
  b : Nat
  a : Nat
deriving DecidableEq

/-- A decoded pixel's channels all fit in one byte. -/
def Pixel.bounded (p : Pixel) : Prop :=
  p.r ≤ 255 ∧ p.g ≤ 255 ∧ p.b ≤ 255 ∧ p.a ≤ 255

instance (p : Pixel) : Decidable p.bounded := by
  unfold Pixel.bounded; infer_instance

/-- A decoded in-memory image: dimensions, channel mode (e.g. "RGBA") and a
total pixel function; only coordinates inside `width × height` are meaningful. -/
structure Img where
  width : Nat
  height : Nat
  mode : String
  pix : Nat → Nat → Pixel

/-- Pixel-identical on the common domain, with equal dimensions and mode. -/
def Img.eqOn (a b : Img) : Prop :=
  a.width = b.width ∧ a.height = b.height ∧ a.mode = b.mode ∧
  ∀ x, x < a.width → ∀ y, y < a.height → a.pix x y = b.pix x y

/-- `Image.copy()`: a fresh image with identical contents; in a pure embedding
this is the identity. -/
def Img.copy (img : Img) : Img := img

/-- `Image.crop((l, t, r, b))`: a `(r-l) × (b-t)` image; source pixels outside
the original are zero-filled, as Pillow does. -/
def Img.crop (img : Img) (l t r b : Nat) : Img :=
  { width := r - l, height := b - t, mode := img.mode,
    pix := fun x y =>
      if l + x < img.width ∧ t + y < img.height then img.pix (l + x) (t + y)
      else ⟨0, 0, 0, 0⟩ }

/-- `transpose(Image.FLIP_LEFT_RIGHT)`. -/
def Img.flipLR (img : Img) : Img :=
  { img with pix := fun x y => img.pix (img.width - 1 - x) y }

/-- `transpose(Image.FLIP_TOP_BOTTOM)`. -/
def Img.flipTB (img : Img) : Img :=
  { img with pix := fun x y => img.pix x (img.height - 1 - y) }

/-- `rotate(180)`: for a multiple of 90 Pillow rotates exactly, mapping
`(x, y)` to `(width-1-x, height-1-y)`. -/
def Img.rotate180 (img : Img) : Img :=
  { img with pix := fun x y => img.pix (img.width - 1 - x) (img.height - 1 - y) }

/-- Pillow's `MULDIV255` rounding approximation of `a * b / 255`
(`tmp = a*b + 128; ((tmp >> 8) + tmp) >> 8`, from libImaging's Paste.c). -/
def muldiv255 (a b : Nat) : Nat :=
  ((a * b + 128) >>> 8 + (a * b + 128)) >>> 8

/-- Per-channel masked blend used by `paste` with a mask value `m`:
`BLEND(m, o, s) = MULDIV255(o, 255-m) + MULDIV255(s, m)`. -/
def blendC (m o s : Nat) : Nat :=
  muldiv255 o (255 - m) + muldiv255 s m

/-- Per-pixel masked blend: every band, alpha included, is blended with the
mask value `m`. -/
def blendPixel (m : Nat) (o s : Pixel) : Pixel :=
  ⟨blendC m o.r s.r, blendC m o.g s.g, blendC m o.b s.b, blendC m o.a s.a⟩

/-- `base.paste(src, (px, py), mask)`: inside the pasted region the source
either replaces the base (no mask) or is blended using the mask image's alpha
band; outside it the base is untouched. -/
def Img.paste (base src : Img) (px py : Nat) (mask : Option Img) : Img :=
  { base with pix := fun x y =>
      if px ≤ x ∧ x < px + src.width ∧ py ≤ y ∧ y < py + src.height then
        match mask with
        | none => src.pix (x - px) (y - py)
        | some m =>
            blendPixel ((m.pix (x - px) (y - py)).a)
              (base.pix x y) (src.pix (x - px) (y - py))
      else base.pix x y }

/-- `mirror_left_to_right` (main.py lines 234-246).  `resample` stands for
`Image.resize(·, LANCZOS)`; it is only consulted when the mirrored slice's
size differs from the right remainder, i.e. when the width is odd. -/
def mirror_left_to_right (resample : Img → Nat → Nat → Img) (img : Img) : Img :=
  if img.width / 2 = 0 then img.copy
  else
    let left := img.crop 0 0 (img.width / 2) img.height
    let mirrored := left.flipLR
    let right_w := img.width - img.width / 2
    let mirrored2 :=
      if mirrored.width ≠ right_w ∨ mirrored.height ≠ img.height then
        resample mirrored right_w img.height
      else mirrored
    (img.copy).paste mirrored2 (img.width - right_w) 0
      (if mirrored2.mode = "RGBA" ∨ mirrored2.mode = "LA" then some mirrored2 else none)

/-- `mirror_top_to_bottom` (main.py lines 248-260). -/
def mirror_top_to_bottom (resample : Img → Nat → Nat → Img) (img : Img) : Img :=
  if img.height / 2 = 0 then img.copy
  else
    let top := img.crop 0 0 img.width (img.height / 2)
    let mirrored := top.flipTB
    let bottom_h := img.height - img.height / 2
    let mirrored2 :=
      if mirrored.height ≠ bottom_h ∨ mirrored.width ≠ img.width then
        resample mirrored img.width bottom_h
      else mirrored
    (img.copy).paste mirrored2 0 (img.height - bottom_h)
      (if mirrored2.mode = "RGBA" ∨ mirrored2.mode = "LA" then some mirrored2 else none)

/-- `mirror_center_quadrant` (main.py lines 262-277). -/
def mirror_center_quadrant (resample : Img → Nat → Nat → Img) (img : Img) : Img :=
  if img.width / 2 = 0 ∨ img.height / 2 = 0 then img.copy
  else
    let tl := img.crop 0 0 (img.width / 2) (img.height / 2)
    let mirrored := tl.rotate180
    let target_w := img.width - img.width / 2
    let target_h := img.height - img.height / 2
    let mirrored2 :=
      if mirrored.width ≠ target_w ∨ mirrored.height ≠ target_h then
        resample mirrored target_w target_h
      else mirrored
    (img.copy).paste mirrored2 (img.width - target_w) (img.height - target_h)
      (if mirrored2.mode = "RGBA" ∨ mirrored2.mode = "LA" then some mirrored2 else none)

/-- A trivial stand-in resample used to instantiate witnesses; the theorems
quantify over every resample function, since on even dimensions the resize
branch is never taken. -/
def resampleStub : Img → Nat → Nat → Img :=
  fun i a b => { width := a, height := b, mode := i.mode, pix := fun _ _ => ⟨0, 0, 0, 0⟩ }

/-- A 10×10 fully opaque red square, the image of the spec's end-to-end example. -/
def red10 : Img :=
  { width := 10, height := 10, mode := "RGBA", pix := fun _ _ => ⟨255, 0, 0, 255⟩ }

example : (mirror_left_to_right resampleStub red10).pix 9 0 = ⟨255, 0, 0, 255⟩ := by decide
example : muldiv255 200 255 = 200 := by decide
example : muldiv255 200 0 = 0 := by decide

/-!
Image locator (`get_first_image`, main.py lines 63-133).

A candidate segment is modelled by the four pieces of data the code probes:
`url` and `file` (`getattr(seg, ..., None)`, an attribute that is present and
a string), `data` (present exactly when `getattr(seg, "data", None)` is a
`bytes`/`bytearray` value) and `render` (`str(seg)`).  Byte strings are
`List Nat`.  The byte loader is an abstract `String → Option (List Nat)`
standing for `await load_bytes(...)`.
-/

/-- Python's `str.startswith(pre)`: character-wise prefix test. -/
def pyStartsWith (s pre : String) : Bool :=
  pre.data.isPrefixOf s.data

/-- A message segment as probed by the locator. -/
structure Seg where
  url : Option String
  file : Option String
  data : Option (List Nat)
  render : String

/-- Python truthiness of an optional string: `None` and `""` are falsy. -/
def truthyStr (o : Option String) : Option String :=
  match o with
  | some s => if s = "" then none else some s
  | none => none

/-- Python truthiness of an optional byte string: `None` and `b""` are falsy. -/
def truthyBytes (o : Option (List Nat)) : Option (List Nat) :=
  match o with
  | some l => if l = [] then none else some l
  | none => none

/-- `if attr: img = await load_bytes(attr); if img: return img` — fetch an
optional string attribute and keep only a truthy (non-empty) result. -/
def fetchNonEmpty (loader : String → Option (List Nat)) (o : Option String) :
    Option (List Nat) :=
  match truthyStr o with
  | some u => truthyBytes (loader u)
  | none => none

/-- The per-segment extraction of `get_first_image` (both the reply-chain loop
and the top-level loop run this same body, main.py lines 79-102 and 105-131):
try `seg.url`, then `seg.file`, then return `seg.data` outright when it is a
bytes value, then fall back to `str(seg)` when it starts with "http". -/
def extractFromSeg (loader : String → Option (List Nat)) (seg : Seg) :
    Option (List Nat) :=
  match fetchNonEmpty loader seg.url with
  | some img => some img
  | none =>
    match fetchNonEmpty loader seg.file with
    | some img => some img
    | none =>
      match seg.data with
      | some d => some d
      | none =>
        if pyStartsWith seg.render "http" then truthyBytes (loader seg.render)
        else none

/-- Modelled from the spec's words for claim C6: the first of the four options
that yields NON-EMPTY bytes wins — in particular an inline-data attribute
holding empty bytes is skipped and the next option is tried. -/
def extractFromSegClaim (loader : String → Option (List Nat)) (seg : Seg) :
    Option (List Nat) :=
  (fetchNonEmpty loader seg.url).orElse fun _ =>
    (fetchNonEmpty loader seg.file).orElse fun _ =>
      (truthyBytes seg.data).orElse fun _ =>
        if pyStartsWith seg.render "http" then truthyBytes (loader seg.render)
        else none

/-- The amended priority chain: like the claim's, except that the inline-data
attribute is returned directly whenever it holds a bytes value, even an empty
one. -/
def extractFromSegAmended (loader : String → Option (List Nat)) (seg : Seg) :
    Option (List Nat) :=
  (fetchNonEmpty loader seg.url).orElse fun _ =>
    (fetchNonEmpty loader seg.file).orElse fun _ =>
      (seg.data).orElse fun _ =>
        if pyStartsWith seg.render "http" then truthyBytes (loader seg.render)
        else none

/-- `get_first_image`: scan the quoted reply's chain first (when present),
then the non-reply top-level segments, returning the first segment extraction
that returns at all. -/
def get_first_image (loader : String → Option (List Nat))
    (replyChain : Option (List Seg)) (tops : List Seg) : Option (List Nat) :=
  (match replyChain with
   | some chain => chain.findSome? (extractFromSeg loader)
   | none => none).orElse fun _ =>
    tops.findSome? (extractFromSeg loader)

/-!
Byte loader (`load_bytes`, main.py lines 29-60).

The environment is abstract: `requestsAvail` models whether the `requests`
module was imported, `http` models `requests.get` (a response with a status code
and a body, or a raised network error) and `fs` models the filesystem
(`os.path.exists` + `open(...).read()`; `none` means the path does not
exist).  Exceptions in the original are represented by the error branches of
these environments; the Lean function is total, so no exception can escape.
-/

/-- Outcome of `requests.get`: a response, or a raised network error. -/
inductive HttpResult where
  | response (status : Nat) (content : List Nat)
  | netError
deriving DecidableEq

/-- `load_bytes` (main.py lines 29-60): empty input → `None`; `http(s)` URLs
go through `requests.get` and only a 200 response yields bytes; anything else
is treated as a local path and read only if it exists. -/
def load_bytes (requestsAvail : Bool) (http : String → HttpResult)
    (fs : String → Option (List Nat)) (s : String) : Option (List Nat) :=
  if s = "" then none
  else if pyStartsWith s "http://" || pyStartsWith s "https://" then
    if requestsAvail then
      match http s with
      | .response status content => if status = 200 then some content else none
      | .netError => none
    else none
  else
    match fs s with
    | some content => some content
    | none => none

/-!
Command handler `SymmetryByReply.sym` (main.py lines 160-313): the argument
synonym table, the pipeline from the parsed argument onwards, and the
send/cleanup stage.
-/

/-- The three canonical transform modes. -/
inductive Mode where
  | lr
  | ud
  | center
deriving DecidableEq

/-- Synonyms accepted for the left-right mode (main.py line 208). -/
def lrTokens : List String := ["左右", "lr", "left", "左右对称"]

/-- Synonyms accepted for the top-bottom mode (main.py line 210). -/
def udTokens : List String := ["上下", "ud", "vertical", "updown", "上下对称"]

/-- Synonyms accepted for the center mode (main.py line 212). -/
def centerTokens : List String := ["中心", "center", "rot", "180", "中心对称"]

/-- The synonym-table lookup (main.py lines 208-216). -/
def resolveMode (p : String) : Option Mode :=
  if p ∈ lrTokens then some .lr
  else if p ∈ udTokens then some .ud
  else if p ∈ centerTokens then some .center
  else none

/-- Python's `str.lower()` restricted to the ASCII range, which is all the
synonym table's latin tokens need (CJK characters are unaffected by `lower()`
in Python and by `Char.toLower` alike): lowercase every character. -/
def pyLower (s : String) : String :=
  ⟨s.data.map Char.toLower⟩

/-- The handler lowercases the parsed token (`parts[k].lower()`, main.py
lines 195 and 200) before the synonym-table lookup. -/
def paramMode (p : String) : Option Mode :=
  resolveMode (pyLower p)

/-- Mode dispatch onto the three transforms (main.py lines 280-285). -/
def applyMode (m : Mode) (resample : Img → Nat → Nat → Img) (im : Img) : Img :=
  match m with
  | .lr => mirror_left_to_right resample im
  | .ud => mirror_top_to_bottom resample im
  | .center => mirror_center_quadrant resample im

/-- Observable image-processing steps of the handler, recorded in order. -/
inductive Effect where
  | locateImage
  | decodeImage
  | transform
deriving DecidableEq

/-- User-facing outcome of the handler stages modelled here. -/
inductive Outcome where
  | invalidParamReply
  | noImageReply
  | openFailReply
  | transformedOk
deriving DecidableEq

/-- The handler from the synonym lookup through the transform (main.py lines
207-289): an unrecognized token replies "参数无效" and returns before the
locator runs; then locating, decoding and transforming happen in order, each
failure stopping the pipeline with its own reply.  `locate` stands for the
result of `get_first_image`, `decode` for `Image.open(...).convert("RGBA")`. -/
def symAfterParse (p : String) (locate : Option (List Nat))
    (decode : List Nat → Option Img) (resample : Img → Nat → Nat → Img) :
    Outcome × List Effect × Option Img :=
  match resolveMode p with
  | none => (.invalidParamReply, [], none)
  | some m =>
    match locate with
    | none => (.noImageReply, [.locateImage], none)
    | some b =>
      match decode b with
      | none => (.openFailReply, [.locateImage, .decodeImage], none)
      | some im =>
        (.transformedOk, [.locateImage, .decodeImage, .transform],
          some (applyMode m resample im))

/-- `os.remove` under the suppressing `try/except` (main.py lines 310-313):
the path is removed when present; a missing path raises, which is swallowed —
in every case the path is absent afterwards. -/
def removeBestEffort (fs : List String) (p : String) : List String :=
  fs.filter (fun q => q ≠ p)

/-- The reply emitted by the send stage. -/
inductive SendReply where
  | imageChain (path : String)
  | sendFailReply
deriving DecidableEq

/-- `_make_image_component_from_path` either yields a component or raises
(main.py lines 135-158); `ok` abstracts which. -/
def buildAttachment (ok : Bool) (path : String) : Except Unit SendReply :=
  if ok then .ok (.imageChain path) else .error ()

/-- The send/cleanup stage (main.py lines 302-313): `try` sending the image
chain, `except` replying with the send-failure message, `finally` removing
the temp file best-effort.  Returns the reply and the temp directory
contents after the handler returns. -/
def sendStage (ok : Bool) (fs : List String) (path : String) :
    SendReply × List String :=
  match buildAttachment ok path with
  | .ok r => (r, removeBestEffort fs path)
  | .error _ => (.sendFailReply, removeBestEffort fs path)

example : resolveMode "lr" = some .lr := by decide
example : resolveMode "中心" = some .center := by decide
example : paramMode "LR" = some .lr := by decide
example : extractFromSeg (fun _ => none) ⟨none, none, some [], "http://x"⟩ = some [] := by decide

/-- A 2×2 RGBA image whose left column is fully transparent red and whose
right column is opaque green. -/
def leftClear2 : Img :=
  { width := 2, height := 2, mode := "RGBA",
    pix := fun x _ => if x = 0 then ⟨255, 0, 0, 0⟩ else ⟨0, 255, 0, 255⟩ }

/-- A 2×2 RGBA image whose top-left pixel is fully transparent red and whose
other pixels are opaque green. -/
def tlClear2 : Img :=
  { width := 2, height := 2, mode := "RGBA",
    pix := fun x y => if x = 0 ∧ y = 0 then ⟨255, 0, 0, 0⟩ else ⟨0, 255, 0, 255⟩ }

/-- A 2×2 fully opaque RGBA image with four distinct pixels. -/
def quad2 : Img :=
  { width := 2, height := 2, mode := "RGBA",
    pix := fun x y => ⟨10 * x + y + 1, 0, 0, 255⟩ }

/-- A 1×1 RGBA image, degenerate for all three transforms. -/
def one1 : Img :=
  { width := 1, height := 1, mode := "RGBA", pix := fun _ _ => ⟨1, 2, 3, 255⟩ }

/-- A segment with no url/file attributes, empty inline bytes, and a string
rendering that is an "http" URL. -/
def segEmptyData : Seg :=
  { url := none, file := none, data := some [], render := "http://img.example/x" }

/-- A loader serving one URL with non-empty bytes. -/
def loaderOne : String → Option (List Nat) :=
  fun s => if s = "http://img.example/x" then some [1, 2, 3] else none

/-- A filesystem on which no path exists. -/
def fsEmpty : String → Option (List Nat) := fun _ => none

/-- An HTTP environment answering every request with status 404. -/
def http404 : String → HttpResult := fun _ => .response 404 []

/-! Helper lemmas about the masked blend. -/

lemma muldiv255_zero (a : Nat) : muldiv255 a 0 = 0 := by
  unfold muldiv255
  rw [Nat.mul_zero]
  decide

set_option maxRecDepth 4096 in
lemma muldiv255_255 : ∀ s, s < 256 → muldiv255 s 255 = s := by decide

lemma blendC_opaque (o s : Nat) (hs : s ≤ 255) : blendC 255 o s = s := by
  unfold blendC
  rw [show (255 - 255 : Nat) = 0 from rfl, muldiv255_zero, muldiv255_255 s (by omega)]
  omega

/-- Blending with a fully opaque (255) mask value copies the source pixel. -/
lemma blendPixel_opaque (o s : Pixel) (hs : s.bounded) : blendPixel 255 o s = s := by
  cases s with
  | mk sr sg sb sa =>
    obtain ⟨hr, hg, hb, ha⟩ := hs
    simp [blendPixel, blendC_opaque _ _ hr, blendC_opaque _ _ hg,
      blendC_opaque _ _ hb, blendC_opaque _ _ ha]

/-! Helper lemmas about `mirror_left_to_right`. -/

/-- The output of the left-right transform has the input's dimensions and
mode, for every resample function. -/
lemma mlr_dims (resample : Img → Nat → Nat → Img) (img : Img) :
    (mirror_left_to_right resample img).width = img.width ∧
    (mirror_left_to_right resample img).height = img.height ∧
    (mirror_left_to_right resample img).mode = img.mode := by
  unfold mirror_left_to_right
  split <;> exact ⟨rfl, rfl, rfl⟩

/-- On an even width the left half of the output is the input's left half,
pixel for pixel, with no opacity assumption. -/
lemma mlr_pix_left_even (resample : Img → Nat → Nat → Img) (img : Img)
    (hw : img.width % 2 = 0) (x y : Nat)
    (hx : x < img.width / 2) (_hy : y < img.height) :
    (mirror_left_to_right resample img).pix x y = img.pix x y := by
  have h0 : ¬ img.width / 2 = 0 := by omega
  have h1 : img.width - img.width / 2 = img.width / 2 := by omega
  unfold mirror_left_to_right
  rw [if_neg h0]
  simp only [Img.copy, Img.crop, Img.flipLR, Img.paste, Nat.sub_zero, h1,
    ne_eq, not_true_eq_false, or_self, if_false, or_false, false_or]
  split
  · next h => obtain ⟨hc, _, _, _⟩ := h; omega
  · rfl

/-- On an even width, an RGBA mode and an opaque left half, the right half of
the output is the horizontal mirror of the input's left half. -/
lemma mlr_pix_right_even (resample : Img → Nat → Nat → Img) (img : Img)
    (hw : img.width % 2 = 0) (hmode : img.mode = "RGBA")
    (hb : ∀ x, x < img.width / 2 → ∀ y, y < img.height →
      (img.pix x y).bounded ∧ (img.pix x y).a = 255)
    (x y : Nat) (hx : x < img.width / 2) (hy : y < img.height) :
    (mirror_left_to_right resample img).pix (img.width - 1 - x) y = img.pix x y := by
  have h0 : ¬ img.width / 2 = 0 := by omega
  have h1 : img.width - img.width / 2 = img.width / 2 := by omega
  unfold mirror_left_to_right
  rw [if_neg h0]
  simp only [Img.copy, Img.crop, Img.flipLR, Img.paste, Nat.sub_zero,
    Nat.zero_add, h1, hmode, ne_eq, not_true_eq_false, or_self, if_false,
    or_false, false_or, true_or, if_true]
  split
  · have hix : img.width / 2 - 1 - (img.width - 1 - x - img.width / 2) = x := by
      omega
    rw [hix]
    have hin : (x < img.width ∧ y < img.height) := ⟨by omega, hy⟩
    rw [if_pos hin]
    have hbx := hb x hx y hy
    rw [hbx.2, blendPixel_opaque _ _ hbx.1]
  · next h =>
    exfalso
    apply h
    refine ⟨by omega, by omega, by omega, by omega⟩

/-! Helper lemmas about `mirror_top_to_bottom`. -/

/-- The output of the top-bottom transform has the input's dimensions and
mode, for every resample function. -/
lemma mtb_dims (resample : Img → Nat → Nat → Img) (img : Img) :
    (mirror_top_to_bottom resample img).width = img.width ∧
    (mirror_top_to_bottom resample img).height = img.height ∧
    (mirror_top_to_bottom resample img).mode = img.mode := by
  unfold mirror_top_to_bottom
  split <;> exact ⟨rfl, rfl, rfl⟩

/-- On an even height the top half of the output is the input's top half,
pixel for pixel, with no opacity assumption. -/
lemma mtb_pix_top_even (resample : Img → Nat → Nat → Img) (img : Img)
    (hh : img.height % 2 = 0) (x y : Nat)
    (_hx : x < img.width) (hy : y < img.height / 2) :
    (mirror_top_to_bottom resample img).pix x y = img.pix x y := by
  have h0 : ¬ img.height / 2 = 0 := by omega
  have h1 : img.height - img.height / 2 = img.height / 2 := by omega
  unfold mirror_top_to_bottom
  rw [if_neg h0]
  simp only [Img.copy, Img.crop, Img.flipTB, Img.paste, Nat.sub_zero,
    Nat.zero_add, h1, ne_eq, not_true_eq_false, or_self, if_false, or_false,
    false_or]
  split
  · next h => exact absurd h.2.2.1 (by omega)
  · rfl

/-- On an even height, an RGBA mode and an opaque top half, the bottom half
of the output is the vertical mirror of the input's top half. -/
lemma mtb_pix_bottom_even (resample : Img → Nat → Nat → Img) (img : Img)
    (hh : img.height % 2 = 0) (hmode : img.mode = "RGBA")
    (hb : ∀ x, x < img.width → ∀ y, y < img.height / 2 →
      (img.pix x y).bounded ∧ (img.pix x y).a = 255)
    (x y : Nat) (hx : x < img.width) (hy : y < img.height / 2) :
    (mirror_top_to_bottom resample img).pix x (img.height - 1 - y) = img.pix x y := by
  have h0 : ¬ img.height / 2 = 0 := by omega
  have h1 : img.height - img.height / 2 = img.height / 2 := by omega
  unfold mirror_top_to_bottom
  rw [if_neg h0]
  simp only [Img.copy, Img.crop, Img.flipTB, Img.paste, Nat.sub_zero,
    Nat.zero_add, h1, hmode, ne_eq, not_true_eq_false, or_self, if_false,
    or_false, false_or, true_or, if_true]
  split
  · have hiy : img.height / 2 - 1 - (img.height - 1 - y - img.height / 2) = y := by
      omega
    rw [hiy]
    have hin : (x < img.width ∧ y < img.height) := ⟨hx, by omega⟩
    rw [if_pos hin]
    have hbx := hb x hx y hy
    rw [hbx.2, blendPixel_opaque _ _ hbx.1]
  · next hcond =>
    exfalso
    apply hcond
    refine ⟨by omega, by omega, by omega, by omega⟩

/-- Applying the left-right transform twice gives the same pixels as applying
it once, on an even-width RGBA image whose left half is opaque. -/
lemma mlr_idem (resample : Img → Nat → Nat → Img) (img : Img)
    (hw : img.width % 2 = 0) (hmode : img.mode = "RGBA")
    (hb : ∀ x, x < img.width / 2 → ∀ y, y < img.height →
      (img.pix x y).bounded ∧ (img.pix x y).a = 255) :
    Img.eqOn (mirror_left_to_right resample (mirror_left_to_right resample img))
      (mirror_left_to_right resample img) := by
  obtain ⟨hW, hH, hM⟩ := mlr_dims resample img
  set f := mirror_left_to_right resample img with hf
  obtain ⟨hW2, hH2, hM2⟩ := mlr_dims resample f
  have hw2 : f.width % 2 = 0 := by rw [hW]; exact hw
  have hmode2 : f.mode = "RGBA" := by rw [hM]; exact hmode
  have hleft : ∀ x, x < img.width / 2 → ∀ y, y < img.height → f.pix x y = img.pix x y :=
    fun x hx y hy => mlr_pix_left_even resample img hw x y hx hy
  have hb2 : ∀ x, x < f.width / 2 → ∀ y, y < f.height →
      (f.pix x y).bounded ∧ (f.pix x y).a = 255 := by
    intro x hx y hy
    rw [hW] at hx
    rw [hH] at hy
    rw [hleft x hx y hy]
    exact hb x hx y hy
  refine ⟨hW2, hH2, hM2, ?_⟩
  intro x hx y hy
  rw [hW2, hW] at hx
  rw [hH2, hH] at hy
  by_cases hxl : x < img.width / 2
  · exact mlr_pix_left_even resample f hw2 x y (by rw [hW]; exact hxl)
      (by rw [hH]; exact hy)
  · have hx' : img.width - 1 - x < img.width / 2 := by omega
    have hxe : img.width - 1 - (img.width - 1 - x) = x := by omega
    have e1 := mlr_pix_right_even resample f hw2 hmode2 hb2 (img.width - 1 - x) y
      (by rw [hW]; exact hx') (by rw [hH]; exact hy)
    rw [hW, hxe] at e1
    have e2 : f.pix (img.width - 1 - x) y = img.pix (img.width - 1 - x) y :=
      hleft _ hx' y hy
    have e3 : f.pix x y = img.pix (img.width - 1 - x) y := by
      have e := mlr_pix_right_even resample img hw hmode hb (img.width - 1 - x) y hx' hy
      rw [hxe] at e
      exact e
    rw [e1, e2, e3]

/-- Applying the top-bottom transform twice gives the same pixels as applying
it once, on an even-height RGBA image whose top half is opaque. -/
lemma mtb_idem (resample : Img → Nat → Nat → Img) (img : Img)
    (hh : img.height % 2 = 0) (hmode : img.mode = "RGBA")
    (hb : ∀ x, x < img.width → ∀ y, y < img.height / 2 →
      (img.pix x y).bounded ∧ (img.pix x y).a = 255) :
    Img.eqOn (mirror_top_to_bottom resample (mirror_top_to_bottom resample img))
      (mirror_top_to_bottom resample img) := by
  obtain ⟨hW, hH, hM⟩ := mtb_dims resample img
  set f := mirror_top_to_bottom resample img with hf
  obtain ⟨hW2, hH2, hM2⟩ := mtb_dims resample f
  have hh2 : f.height % 2 = 0 := by rw [hH]; exact hh
  have hmode2 : f.mode = "RGBA" := by rw [hM]; exact hmode
  have htop : ∀ x, x < img.width → ∀ y, y < img.height / 2 → f.pix x y = img.pix x y :=
    fun x hx y hy => mtb_pix_top_even resample img hh x y hx hy
  have hb2 : ∀ x, x < f.width → ∀ y, y < f.height / 2 →
      (f.pix x y).bounded ∧ (f.pix x y).a = 255 := by
    intro x hx y hy
    rw [hW] at hx
    rw [hH] at hy
    rw [htop x hx y hy]
    exact hb x hx y hy
  refine ⟨hW2, hH2, hM2, ?_⟩
  intro x hx y hy
  rw [hW2, hW] at hx
  rw [hH2, hH] at hy
  by_cases hyl : y < img.height / 2
  · exact mtb_pix_top_even resample f hh2 x y (by rw [hW]; exact hx)
      (by rw [hH]; exact hyl)
  · have hy' : img.height - 1 - y < img.height / 2 := by omega
    have hye : img.height - 1 - (img.height - 1 - y) = y := by omega
    have e1 := mtb_pix_bottom_even resample f hh2 hmode2 hb2 x (img.height - 1 - y)
      (by rw [hW]; exact hx) (by rw [hH]; exact hy')
    rw [hH, hye] at e1
    have e2 : f.pix x (img.height - 1 - y) = img.pix x (img.height - 1 - y) :=
      htop x hx _ hy'
    have e3 : f.pix x y = img.pix x (img.height - 1 - y) := by
      have e := mtb_pix_bottom_even resample img hh hmode hb x (img.height - 1 - y) hx hy'
      rw [hye] at e
      exact e
    rw [e1, e2, e3]

/-! Helper lemmas about `mirror_center_quadrant`. -/

/-- The output of the center-quadrant transform has the input's dimensions
and mode, for every resample function. -/
lemma mcq_dims (resample : Img → Nat → Nat → Img) (img : Img) :
    (mirror_center_quadrant resample img).width = img.width ∧
    (mirror_center_quadrant resample img).height = img.height ∧
    (mirror_center_quadrant resample img).mode = img.mode := by
  unfold mirror_center_quadrant
  split <;> exact ⟨rfl, rfl, rfl⟩

/-- On even dimensions, an RGBA mode and an opaque top-left quadrant, the
bottom-right quadrant of the output is the 180°-rotated top-left quadrant of
the input. -/
lemma mcq_pix_br_even (resample : Img → Nat → Nat → Img) (img : Img)
    (hw : img.width % 2 = 0) (hh : img.height % 2 = 0) (hmode : img.mode = "RGBA")
    (hb : ∀ x, x < img.width / 2 → ∀ y, y < img.height / 2 →
      (img.pix x y).bounded ∧ (img.pix x y).a = 255)
    (x y : Nat) (hx : x < img.width / 2) (hy : y < img.height / 2) :
    (mirror_center_quadrant resample img).pix (img.width - 1 - x) (img.height - 1 - y) =
      img.pix x y := by
  have h0 : ¬ (img.width / 2 = 0 ∨ img.height / 2 = 0) := by omega
  have h1 : img.width - img.width / 2 = img.width / 2 := by omega
  have h2 : img.height - img.height / 2 = img.height / 2 := by omega
  unfold mirror_center_quadrant
  rw [if_neg h0]
  simp only [Img.copy, Img.crop, Img.rotate180, Img.paste, Nat.sub_zero,
    Nat.zero_add, h1, h2, hmode, ne_eq, not_true_eq_false, or_self, if_false,
    or_false, false_or, true_or, if_true]
  split
  · have hix : img.width / 2 - 1 - (img.width - 1 - x - img.width / 2) = x := by
      omega
    have hiy : img.height / 2 - 1 - (img.height - 1 - y - img.height / 2) = y := by
      omega
    rw [hix, hiy]
    have hin : (x < img.width ∧ y < img.height) := ⟨by omega, by omega⟩
    rw [if_pos hin]
    have hbx := hb x hx y hy
    rw [hbx.2, blendPixel_opaque _ _ hbx.1]
  · next h =>
    exfalso
    apply h
    refine ⟨by omega, by omega, by omega, by omega⟩

/-! Claim theorems. -/

/-- C1 (amended): on an even-width RGBA image, the left half of
`mirror_left_to_right`'s output is pixel-identical to the input's left half,
and — provided the left half is fully opaque, as in the spec's 10×10 opaque
example — the right half is the horizontal mirror of the input's left half.
Without the opacity premise the alpha-masked paste blends with the original
right half instead of copying (see the counterexample). -/
theorem mirror_lr_even_halves (resample : Img → Nat → Nat → Img) (img : Img)
    (hw : img.width % 2 = 0) (hmode : img.mode = "RGBA") :
    (∀ x, x < img.width / 2 → ∀ y, y < img.height →
      (mirror_left_to_right resample img).pix x y = img.pix x y) ∧
    ((∀ x, x < img.width / 2 → ∀ y, y < img.height →
        (img.pix x y).bounded ∧ (img.pix x y).a = 255) →
      ∀ x, x < img.width / 2 → ∀ y, y < img.height →
        (mirror_left_to_right resample img).pix (img.width - 1 - x) y = img.pix x y) :=
  ⟨fun x hx y hy => mlr_pix_left_even resample img hw x y hx hy,
   fun hb x hx y hy => mlr_pix_right_even resample img hw hmode hb x y hx hy⟩

/-- Witness for the C1 theorem at the spec's 10×10 fully opaque image: pixel
(2,3) of the left half is preserved and pixel (9,0) mirrors pixel (0,0). -/
theorem mirror_lr_even_halves_witness :
    (mirror_left_to_right resampleStub red10).pix 2 3 = red10.pix 2 3 ∧
    (mirror_left_to_right resampleStub red10).pix 9 0 = red10.pix 0 0 := by
  have h := mirror_lr_even_halves resampleStub red10 (by decide) rfl
  exact ⟨h.1 2 (by decide) 3 (by decide), h.2 (by decide) 0 (by decide) 0 (by decide)⟩

/-- C1 counterexample: on `leftClear2` (even 2×2, fully transparent left
half) the alpha-masked paste keeps the original right column, so output pixel
(1,0) is not the mirror of input pixel (0,0) as the claim requires. -/
theorem mirror_lr_claim_counterexample :
    (mirror_left_to_right resampleStub leftClear2).pix 1 0 = leftClear2.pix 1 0 ∧
    (mirror_left_to_right resampleStub leftClear2).pix 1 0 ≠ leftClear2.pix 0 0 := by
  decide

/-- C2 (amended): on an even×even RGBA image whose top-left quadrant is fully
opaque, the bottom-right quadrant of `mirror_center_quadrant`'s output is
exactly the 180°-rotated top-left quadrant of the input.  The claim's "for
every input image including ones with non-opaque alpha" is false: the paste
masks with the rotated quadrant's own alpha (see the counterexample). -/
theorem mirror_cq_br_rot180 (resample : Img → Nat → Nat → Img) (img : Img)
    (hw : img.width % 2 = 0) (hh : img.height % 2 = 0) (hmode : img.mode = "RGBA")
    (hb : ∀ x, x < img.width / 2 → ∀ y, y < img.height / 2 →
      (img.pix x y).bounded ∧ (img.pix x y).a = 255) :
    ∀ x, x < img.width / 2 → ∀ y, y < img.height / 2 →
      (mirror_center_quadrant resample img).pix (img.width - 1 - x) (img.height - 1 - y) =
        img.pix x y :=
  fun x hx y hy => mcq_pix_br_even resample img hw hh hmode hb x y hx hy

/-- Witness for the C2 theorem on the 10×10 opaque image: output pixel (9,9)
equals input pixel (0,0). -/
theorem mirror_cq_br_rot180_witness :
    (mirror_center_quadrant resampleStub red10).pix 9 9 = red10.pix 0 0 := by
  exact mirror_cq_br_rot180 resampleStub red10 (by decide) (by decide) rfl
    (by decide) 0 (by decide) 0 (by decide)

/-- C2 counterexample: on `tlClear2` (even 2×2, transparent top-left pixel)
the masked paste keeps the original bottom-right pixel, so output pixel (1,1)
is not the 180° rotation of input pixel (0,0). -/
theorem mirror_cq_claim_counterexample :
    (mirror_center_quadrant resampleStub tlClear2).pix 1 1 = tlClear2.pix 1 1 ∧
    (mirror_center_quadrant resampleStub tlClear2).pix 1 1 ≠ tlClear2.pix 0 0 := by
  decide

/-- C3: each of the three transforms returns an image with the input's width,
height and channel mode, for every input image and every resample function;
in this pure embedding the input image itself is untouched by construction. -/
theorem transforms_preserve_dims_mode (resample : Img → Nat → Nat → Img) (img : Img) :
    ((mirror_left_to_right resample img).width = img.width ∧
      (mirror_left_to_right resample img).height = img.height ∧
      (mirror_left_to_right resample img).mode = img.mode) ∧
    ((mirror_top_to_bottom resample img).width = img.width ∧
      (mirror_top_to_bottom resample img).height = img.height ∧
      (mirror_top_to_bottom resample img).mode = img.mode) ∧
    ((mirror_center_quadrant resample img).width = img.width ∧
      (mirror_center_quadrant resample img).height = img.height ∧
      (mirror_center_quadrant resample img).mode = img.mode) :=
  ⟨mlr_dims resample img, mtb_dims resample img, mcq_dims resample img⟩

/-- C4 (amended): the left-right and top-bottom transforms are idempotent —
not involutive — on even-dimensioned RGBA images whose mirrored half is
opaque: applying a transform twice is pixel-identical to applying it once.
Applying it twice does not restore the input, since the first application
overwrites the mirrored half (see the counterexample). -/
theorem mirror_lr_tb_idempotent (resample : Img → Nat → Nat → Img) (img : Img)
    (hmode : img.mode = "RGBA") :
    ((img.width % 2 = 0) →
      (∀ x, x < img.width / 2 → ∀ y, y < img.height →
        (img.pix x y).bounded ∧ (img.pix x y).a = 255) →
      Img.eqOn
        (mirror_left_to_right resample (mirror_left_to_right resample img))
        (mirror_left_to_right resample img)) ∧
    ((img.height % 2 = 0) →
      (∀ x, x < img.width → ∀ y, y < img.height / 2 →
        (img.pix x y).bounded ∧ (img.pix x y).a = 255) →
      Img.eqOn
        (mirror_top_to_bottom resample (mirror_top_to_bottom resample img))
        (mirror_top_to_bottom resample img)) :=
  ⟨fun hw hb => mlr_idem resample img hw hmode hb,
   fun hh hb => mtb_idem resample img hh hmode hb⟩

/-- Witness for the C4 theorem on the 10×10 opaque image. -/
theorem mirror_lr_tb_idempotent_witness :
    Img.eqOn (mirror_left_to_right resampleStub (mirror_left_to_right resampleStub red10))
      (mirror_left_to_right resampleStub red10) ∧
    Img.eqOn (mirror_top_to_bottom resampleStub (mirror_top_to_bottom resampleStub red10))
      (mirror_top_to_bottom resampleStub red10) := by
  have h := mirror_lr_tb_idempotent resampleStub red10 rfl
  exact ⟨h.1 (by decide) (by decide), h.2 (by decide) (by decide)⟩

/-- C4 counterexample: on the fully opaque even 2×2 image `quad2` neither
transform is an involution — applying it twice does not restore the input,
because the mirrored half of the original is destroyed by the first
application. -/
theorem mirror_lr_tb_involution_counterexample :
    ¬ Img.eqOn
        (mirror_left_to_right resampleStub (mirror_left_to_right resampleStub quad2))
        quad2 ∧
    ¬ Img.eqOn
        (mirror_top_to_bottom resampleStub (mirror_top_to_bottom resampleStub quad2))
        quad2 := by
  constructor
  · intro h
    exact absurd (h.2.2.2 1 (by decide) 0 (by decide)) (by decide)
  · intro h
    exact absurd (h.2.2.2 0 (by decide) 1 (by decide)) (by decide)

/-- C5: when the computed half or quadrant dimension is zero (width < 2 for
left-right, height < 2 for top-bottom, either < 2 for center-quadrant), the
transform returns the unmodified copy of the input directly from the guard —
no crop, flip, resize or paste is reachable in that branch. -/
theorem degenerate_returns_copy (resample : Img → Nat → Nat → Img) (img : Img) :
    (img.width < 2 → mirror_left_to_right resample img = img) ∧
    (img.height < 2 → mirror_top_to_bottom resample img = img) ∧
    (img.width < 2 ∨ img.height < 2 → mirror_center_quadrant resample img = img) := by
  refine ⟨fun h => ?_, fun h => ?_, fun h => ?_⟩
  · unfold mirror_left_to_right
    rw [if_pos (show img.width / 2 = 0 by omega)]
    rfl
  · unfold mirror_top_to_bottom
    rw [if_pos (show img.height / 2 = 0 by omega)]
    rfl
  · unfold mirror_center_quadrant
    rw [if_pos (show img.width / 2 = 0 ∨ img.height / 2 = 0 by omega)]
    rfl

/-- Witness for the C5 theorem at a concrete 1×1 image. -/
theorem degenerate_returns_copy_witness :
    mirror_left_to_right resampleStub one1 = one1 ∧
    mirror_top_to_bottom resampleStub one1 = one1 ∧
    mirror_center_quadrant resampleStub one1 = one1 := by
  have h := degenerate_returns_copy resampleStub one1
  exact ⟨h.1 (by decide), h.2.1 (by decide), h.2.2 (Or.inl (by decide))⟩

/-- C6 (amended): the per-segment extraction of `get_first_image` follows the
fixed priority URL → file → inline data → "http" string rendering, where the
URL, file and string options fall through on a missing/empty attribute, a
failed fetch or empty fetched bytes — but the inline-data option is returned
outright whenever the attribute holds a bytes value, even empty bytes (the
code checks only `isinstance(data, (bytes, bytearray))`, not non-emptiness;
see the counterexample). -/
theorem extract_priority_amended (loader : String → Option (List Nat)) (seg : Seg) :
    extractFromSeg loader seg = extractFromSegAmended loader seg := by
  unfold extractFromSeg extractFromSegAmended
  cases fetchNonEmpty loader seg.url with
  | some b => rfl
  | none =>
    cases fetchNonEmpty loader seg.file with
    | some b => rfl
    | none =>
      cases seg.data with
      | some d => rfl
      | none => rfl

/-- C6 counterexample: on a segment whose inline-data attribute is empty
bytes and whose string rendering is a fetchable "http" URL, the code returns
the empty bytes, while the claim's first-non-empty-option rule would return
the fetched bytes. -/
theorem extract_empty_data_counterexample :
    extractFromSeg loaderOne segEmptyData = some [] ∧
    extractFromSegClaim loaderOne segEmptyData = some [1, 2, 3] ∧
    extractFromSeg loaderOne segEmptyData ≠ extractFromSegClaim loaderOne segEmptyData := by
  decide

/-- C7: the byte loader never fails its caller — it is a total function into
`Option`, and returns `none` ("unavailable") on empty input, on a local path
that does not exist, on an HTTP(S) URL answered with a non-200 status, and on
a network error; the abstract environments carry the fallible behaviour, so
every exception of the original is a `none` here. -/
theorem load_bytes_unavailable (requestsAvail : Bool) (http : String → HttpResult)
    (fs : String → Option (List Nat)) :
    load_bytes requestsAvail http fs "" = none ∧
    (∀ s, s ≠ "" → (pyStartsWith s "http://" || pyStartsWith s "https://") = false →
      fs s = none → load_bytes requestsAvail http fs s = none) ∧
    (∀ s status content,
      (pyStartsWith s "http://" || pyStartsWith s "https://") = true →
      http s = .response status content → status ≠ 200 →
      load_bytes requestsAvail http fs s = none) ∧
    (∀ s, (pyStartsWith s "http://" || pyStartsWith s "https://") = true →
      http s = .netError → load_bytes requestsAvail http fs s = none) := by
  refine ⟨rfl, ?_, ?_, ?_⟩
  · intro s hs hpre hfs
    unfold load_bytes
    rw [if_neg hs, hpre]
    simp [hfs]
  · intro s status content hpre hhttp hstatus
    unfold load_bytes
    rw [if_neg (by intro h; rw [h] at hpre; exact absurd hpre (by decide)), hpre]
    cases requestsAvail with
    | false => simp
    | true => simp [hhttp, hstatus]
  · intro s hpre hhttp
    unfold load_bytes
    rw [if_neg (by intro h; rw [h] at hpre; exact absurd hpre (by decide)), hpre]
    cases requestsAvail with
    | false => simp
    | true => simp [hhttp]

/-- Witness for the C7 theorem: empty input, a nonexistent local path and a
404-answering URL all yield "unavailable". -/
theorem load_bytes_unavailable_witness :
    load_bytes true http404 fsEmpty "" = none ∧
    load_bytes true http404 fsEmpty "/tmp/missing.png" = none ∧
    load_bytes true http404 fsEmpty "http://img.example/x" = none := by
  have h := load_bytes_unavailable true http404 fsEmpty
  exact ⟨h.1,
    h.2.1 "/tmp/missing.png" (by decide) (by decide) rfl,
    h.2.2.1 "http://img.example/x" 404 [] (by decide) rfl (by decide)⟩

/-- C8: every token of the synonym table resolves to exactly its canonical
mode, and any other (already lowercased) token makes the handler reply
"参数无效" and return with no locate, decode or transform step performed. -/
theorem synonym_table_and_invalid_stop :
    (∀ t, t ∈ lrTokens → resolveMode t = some Mode.lr) ∧
    (∀ t, t ∈ udTokens → resolveMode t = some Mode.ud) ∧
    (∀ t, t ∈ centerTokens → resolveMode t = some Mode.center) ∧
    (∀ p, p ∉ lrTokens → p ∉ udTokens → p ∉ centerTokens →
      resolveMode p = none ∧
      ∀ locate decode resample, symAfterParse p locate decode resample =
        (Outcome.invalidParamReply, [], none)) := by
  refine ⟨?_, ?_, ?_, ?_⟩
  · intro t ht
    simp only [lrTokens, List.mem_cons, List.not_mem_nil, or_false] at ht
    rcases ht with rfl | rfl | rfl | rfl <;> decide
  · intro t ht
    simp only [udTokens, List.mem_cons, List.not_mem_nil, or_false] at ht
    rcases ht with rfl | rfl | rfl | rfl | rfl <;> decide
  · intro t ht
    simp only [centerTokens, List.mem_cons, List.not_mem_nil, or_false] at ht
    rcases ht with rfl | rfl | rfl | rfl | rfl <;> decide
  · intro p h1 h2 h3
    have hr : resolveMode p = none := by
      unfold resolveMode
      rw [if_neg h1, if_neg h2, if_neg h3]
    refine ⟨hr, fun locate decode resample => ?_⟩
    unfold symAfterParse
    rw [hr]

/-- Witness for the C8 theorem: one token of each row, and an unknown token
that stops the pipeline with the invalid-parameter reply and no effects. -/
theorem synonym_table_and_invalid_stop_witness :
    resolveMode "lr" = some Mode.lr ∧
    resolveMode "updown" = some Mode.ud ∧
    resolveMode "180" = some Mode.center ∧
    resolveMode "diagonal" = none ∧
    symAfterParse "diagonal" (some [1]) (fun _ => some red10) resampleStub =
      (Outcome.invalidParamReply, [], none) := by
  have h := synonym_table_and_invalid_stop
  have h4 := h.2.2.2 "diagonal" (by decide) (by decide) (by decide)
  exact ⟨h.1 "lr" (by decide), h.2.1 "updown" (by decide), h.2.2.1 "180" (by decide),
    h4.1, h4.2 (some [1]) (fun _ => some red10) resampleStub⟩

/-- C9: whatever the attachment construction/send stage does, the temp file
is deleted in the `finally` step — the resulting temp directory is exactly
the old one with the path removed, the path is absent from it, and a reply is
emitted on both the success and the failure path; `removeBestEffort` is total,
so a failing deletion (e.g. an already-missing file) is swallowed. -/
theorem temp_cleanup_both_paths (ok : Bool) (fs : List String) (path : String) :
    (sendStage ok fs path).2 = removeBestEffort fs path ∧
    path ∉ (sendStage ok fs path).2 ∧
    (sendStage ok fs path).1 =
      (if ok then SendReply.imageChain path else SendReply.sendFailReply) := by
  cases ok <;>
    simp [sendStage, buildAttachment, removeBestEffort, List.mem_filter]

/-- C10: the handler lowercases the parsed token before the synonym lookup,
so every string whose lowercase form is a token of the table resolves to that
token's mode; in particular "LR", "Center" and "UPDOWN" resolve like their
lowercase forms. -/
theorem lowercase_before_lookup :
    (∀ s t, t ∈ lrTokens ++ udTokens ++ centerTokens → pyLower s = t →
      paramMode s = resolveMode t) ∧
    paramMode "LR" = some Mode.lr ∧
    paramMode "Center" = some Mode.center ∧
    paramMode "UPDOWN" = some Mode.ud := by
  refine ⟨?_, by decide, by decide, by decide⟩
  intro s t _ht hlow
  unfold paramMode
  rw [hlow]

/-- Witness for the C10 theorem at the mixed-case token "LR". -/
theorem lowercase_before_lookup_witness :
    paramMode "LR" = resolveMode "lr" :=
  lowercase_before_lookup.1 "LR" "lr" (by decide) (by decide)
